import Mathlib

/-!
Shallow embedding of `src/app.py` (instagram-bot-api): the session store
(`get_session_file`), the session manager (`get_client`), remote image
acquisition (`download_image`) and the `POST /post-image` handler
(`post_image`).  External effects (the HTTP client `requests`, the
filesystem, and the opaque `instagrapi.Client` collaborator) are modelled
as explicit oracles and state threaded through the functions; Python
exceptions become an `Except` error channel carrying the exception class
and message.
-/

namespace InstagramBotApi

/-- Directory constant `SESSIONS_DIR = "sessions"` (app.py line 16). -/
def SESSIONS_DIR : String := "sessions"

/-- Directory constant `TEMP_DIR = "temp_images"` (app.py line 17). -/
def TEMP_DIR : String := "temp_images"

/-- Python exception classes that appear in `app.py`, each carrying its
message (`str(e)`).  `exc` is a plain `Exception(...)`, the class the
wrappers at lines 90, 92 and 94 raise. -/
inductive PyExc where
  | valueError (m : String)
  | httpError (m : String)
  | connectionError (m : String)
  | nameError (m : String)
  | ioError (m : String)
  | exc (m : String)
  deriving Repr, DecidableEq

/-- `str(e)`: the message of the exception. -/
def PyExc.msg : PyExc → String
  | .valueError m => m
  | .httpError m => m
  | .connectionError m => m
  | .nameError m => m
  | .ioError m => m
  | .exc m => m

/-- Whether the exception is caught by `except requests.exceptions.RequestException`
(app.py line 89): `HTTPError` and `ConnectionError`/`Timeout` are request
exceptions; `ValueError`, `NameError`, `IOError` and plain `Exception` are not. -/
def PyExc.isRequestException : PyExc → Bool
  | .httpError _ => true
  | .connectionError _ => true
  | _ => false

/-- Whether the exception is caught by `except IOError` (app.py line 91). -/
def PyExc.isIOErr : PyExc → Bool
  | .ioError _ => true
  | _ => false

/-- Scratch-directory filesystem state: the files that exist, as
(path, size in bytes) pairs. -/
abbrev FsState := List (String × Nat)

/-- `os.path.exists` restricted to files of the modelled state. -/
def fileExists (fs : FsState) (p : String) : Bool :=
  fs.any (fun e => e.1 == p)

/-- Python `s.startswith(pre)` on strings. -/
def str_startswith (s pre : String) : Bool :=
  pre.data.isPrefixOf s.data

/-- An HTTP response as `requests.get` returns it: status code, reason
phrase, and the streamed body chunks (`iter_content`). -/
structure HttpResponse where
  status : Nat
  reason : String
  chunks : List (List Nat)
  deriving Repr, DecidableEq

/-- The message `requests` attaches to the `HTTPError` raised by
`raise_for_status` on a 4xx/5xx status. -/
def http_error_message (url : String) (r : HttpResponse) : String :=
  toString r.status
    ++ (if r.status < 500 then " Client Error: " else " Server Error: ")
    ++ r.reason ++ " for url: " ++ url

/-- `response.raise_for_status()` (app.py line 62): raises `HTTPError`
exactly when the status is 4xx or 5xx; 1xx/2xx/3xx statuses pass. -/
def raise_for_status (url : String) (r : HttpResponse) : Except PyExc Unit :=
  if 400 ≤ r.status ∧ r.status ≤ 599 then
    .error (.httpError (http_error_message url r))
  else
    .ok ()

instance {ε α : Type} [DecidableEq ε] [DecidableEq α] : DecidableEq (Except ε α) := fun x y =>
  match x, y with
  | .ok a, .ok b => if h : a = b then .isTrue (by rw [h]) else .isFalse (by simp [h])
  | .error a, .error b => if h : a = b then .isTrue (by rw [h]) else .isFalse (by simp [h])
  | .ok _, .error _ => .isFalse (by simp)
  | .error _, .ok _ => .isFalse (by simp)

/-- Outcome of `download_image`: the returned path or raised exception,
the number of network requests issued, and the scratch filesystem state. -/
structure DlOutcome where
  result : Except PyExc String
  netCalls : Nat
  fs : FsState
  deriving Repr, DecidableEq

/-- `download_image` (app.py lines 51-94).  `get` is the network oracle
standing for `requests.get` (its error is a request exception such as
`ConnectionError`).  The body runs, in source order: the URL-scheme check
(line 54), the GET (line 61), `raise_for_status` (line 62), and then
line 65 evaluates `urlparse(image_url)` — but `urlparse` is never
imported in app.py, so execution raises
`NameError("name \x27urlparse\x27 is not defined")` there, making
lines 66-87 unreachable.  The `except` clauses (lines 89-94) wrap
whatever was raised: request exceptions get the "Network error" prefix,
`IOError` the "Filesystem error" prefix, everything else the
"Unexpected error" prefix, always re-raised as a plain `Exception`. -/
def download_image (get : String → Except PyExc HttpResponse)
    (fs0 : FsState) (image_url : String) : DlOutcome :=
  let inner : Except PyExc String × Nat × FsState :=
    if str_startswith image_url "http://" || str_startswith image_url "https://" then
      match get image_url with
      | .error e => (.error e, 1, fs0)
      | .ok resp =>
        match raise_for_status image_url resp with
        | .error e => (.error e, 1, fs0)
        | .ok _ =>
          (.error (.nameError "name \x27urlparse\x27 is not defined"), 1, fs0)
    else
      (.error (.valueError "Invalid URL scheme - must be http:// or https://"), 0, fs0)
  match inner with
  | (.ok p, n, fs) => ⟨.ok p, n, fs⟩
  | (.error e, n, fs) =>
    if e.isRequestException then
      ⟨.error (.exc ("Network error downloading image: " ++ e.msg)), n, fs⟩
    else if e.isIOErr then
      ⟨.error (.exc ("Filesystem error saving image: " ++ e.msg)), n, fs⟩
    else
      ⟨.error (.exc ("Unexpected error downloading image: " ++ e.msg)), n, fs⟩

/-- `get_session_file` (app.py lines 25-27), parameterised by the hex
digest function `sha256hex` standing for
`hashlib.sha256(username.encode("utf-8")).hexdigest()`. -/
def get_session_file (sha256hex : String → String) (username : String) : String :=
  SESSIONS_DIR ++ "/" ++ sha256hex username ++ "_session.json"

/-- State of an `instagrapi.Client` object as the app observes it: the
serialized settings it currently holds (`none` for a fresh `Client()`). -/
structure IgClient where
  settings : Option String
  deriving Repr, DecidableEq

/-- The opaque external collaborator (`instagrapi`), modelled as a
capability.  `deserializes` says whether `cl.load_settings` succeeds on a
stored blob; `login` is `cl.login(username, password)` on a client in a
given state, returning the settings blob the client holds afterwards
(which `cl.dump_settings` would then write); `probe` says whether a cheap
liveness check on a deserialized session would succeed — app.py never
calls any such probe, the field exists only to state the spec's fast-path
property about it. -/
structure IgService where
  deserializes : String → Bool
  login : IgClient → String → String → Except PyExc String
  probe : String → Bool

/-- The on-disk session store: path to stored blob. -/
def Store := String → Option String

/-- Overwrite one path of the store (`cl.dump_settings(session_file)`). -/
def store_set (st : Store) (k v : String) : Store :=
  fun k2 => if k2 = k then some v else st k2

/-- The client state after lines 34-39 of app.py: if the session file
exists, try `load_settings`; a deserialization failure is only logged, so
the client keeps its fresh (empty) settings. -/
def load_settings_step (svc : IgService) (st : Store) (session_file : String) : IgClient :=
  match st session_file with
  | some blob => if svc.deserializes blob then ⟨some blob⟩ else ⟨none⟩
  | none => ⟨none⟩

/-- Outcome of `get_client`: the returned client or raised exception, the
login calls made against the external service (with their credential
arguments), and the session store afterwards. -/
structure GcOutcome where
  result : Except PyExc IgClient
  logins : List (String × String)
  store : Store

/-- `get_client` (app.py lines 29-49): attempt to load a cached session
(failure non-fatal), then always call `cl.login(username, password)`; on
success `cl.dump_settings(session_file)` persists the new settings, on
failure the exception is re-raised after logging and nothing is written. -/
def get_client (svc : IgService) (sha256hex : String → String) (st : Store)
    (username password : String) : GcOutcome :=
  let session_file := get_session_file sha256hex username
  let cl := load_settings_step svc st session_file
  match svc.login cl username password with
  | .error e => ⟨.error e, [(username, password)], st⟩
  | .ok newSettings =>
      ⟨.ok ⟨some newSettings⟩, [(username, password)],
        store_set st session_file newSettings⟩

/-- Parsed JSON body of a `POST /post-image` request: `data.get(...)`
yields `None` for an absent key. -/
structure Req where
  username : Option String
  password : Option String
  image_url : Option String
  caption : Option String
  deriving Repr, DecidableEq

/-- Python truthiness of `data.get(key)`: `None` and the empty string are
falsy, any non-empty string is truthy. -/
def truthy : Option String → Bool
  | none => false
  | some s => !s.data.isEmpty

/-- JSON body of the handler's response. -/
inductive RespBody where
  | success (media_id : Nat) (caption : String)
  | error (m : String)
  deriving Repr, DecidableEq

/-- One outbound call made while handling a request. -/
inductive NetCall where
  | download (url : String)
  | login (username password : String)
  | upload (path caption : String)
  deriving Repr, DecidableEq

/-- Outcome of the `POST /post-image` handler: HTTP status, JSON body,
scratch filesystem afterwards, outbound calls made (in order). -/
structure PostOutcome where
  status : Nat
  body : RespBody
  fs : FsState
  calls : List NetCall
  deriving Repr, DecidableEq

/-- The three steps the handler runs in sequence, as oracles:
`download_image` (which may create a scratch file and return its path),
`get_client`, and `cl.photo_upload` (returning `media.pk`).  `download`
is an oracle rather than the embedded `download_image` because the claims
about the handler condition on the acquisition step's outcome. -/
structure Handlers where
  download : FsState → String → Except PyExc String × FsState
  getClient : String → String → Except PyExc IgClient
  photoUpload : IgClient → String → String → Except PyExc Nat

/-- `os.remove(image_path)` (app.py line 165): deletes the file, raising
`FileNotFoundError` (an `OSError`) when it does not exist. -/
def os_remove (fs : FsState) (p : String) : Except PyExc FsState :=
  if fileExists fs p then
    .ok (fs.filter (fun e => !(e.1 == p)))
  else
    .error (.ioError ("[Errno 2] No such file or directory: \x27" ++ p ++ "\x27"))

/-- `post_image` (app.py lines 148-174).  Required-field check first
(`if not username or not password or not image_url`, line 156) returning
400; then download, session acquisition, upload; `os.remove` runs only on
the success path (line 165); any exception is caught at line 172 and
turned into a 500 response carrying `str(e)`. -/
def post_image (H : Handlers) (fs0 : FsState) (req : Req) : PostOutcome :=
  let caption := req.caption.getD ""
  if !(truthy req.username) || !(truthy req.password) || !(truthy req.image_url) then
    ⟨400, .error "username, password, and image_url are required", fs0, []⟩
  else
    let username := req.username.getD ""
    let password := req.password.getD ""
    let image_url := req.image_url.getD ""
    match H.download fs0 image_url with
    | (.error e, fs1) => ⟨500, .error e.msg, fs1, [.download image_url]⟩
    | (.ok image_path, fs1) =>
      match H.getClient username password with
      | .error e =>
          ⟨500, .error e.msg, fs1, [.download image_url, .login username password]⟩
      | .ok cl =>
        match H.photoUpload cl image_path caption with
        | .error e =>
            ⟨500, .error e.msg, fs1,
              [.download image_url, .login username password, .upload image_path caption]⟩
        | .ok pk =>
          match os_remove fs1 image_path with
          | .error e =>
              ⟨500, .error e.msg, fs1,
                [.download image_url, .login username password, .upload image_path caption]⟩
          | .ok fs2 =>
              ⟨200, .success pk caption, fs2,
                [.download image_url, .login username password, .upload image_path caption]⟩

end InstagramBotApi

namespace InstagramBotApi

/-! Concrete oracles used by the closed instances below. -/

/-- Network oracle: every GET answers `200 OK` with a small body. -/
def okGet : String → Except PyExc HttpResponse :=
  fun _ => .ok ⟨200, "OK", [[137, 80, 78, 71]]⟩

/-- Network oracle: every GET answers `304 Not Modified`. -/
def notModifiedGet : String → Except PyExc HttpResponse :=
  fun _ => .ok ⟨304, "Not Modified", []⟩

/-- Network oracle: every GET answers `404 Not Found`. -/
def notFoundGet : String → Except PyExc HttpResponse :=
  fun _ => .ok ⟨404, "Not Found", []⟩

/-- Digest oracle for concrete instances: the identity, which keeps
distinct identifiers distinct. -/
def idDigest : String → String := fun s => s

/-- Store holding a cached session blob for account `alice`. -/
def cachedStore : Store :=
  fun q => if q = get_session_file idDigest "alice" then some "cachedsession" else none

/-- Collaborator for which the cached blob deserializes, a liveness probe
would succeed, and login succeeds with a fresh session. -/
def liveSvc : IgService :=
  { deserializes := fun _ => true
    login := fun _ _ _ => .ok "freshsession"
    probe := fun _ => true }

/-- Collaborator for which no blob deserializes but login succeeds. -/
def strictSvc : IgService :=
  { deserializes := fun _ => false
    login := fun _ _ _ => .ok "freshsession"
    probe := fun _ => false }

/-- Collaborator whose login always raises. -/
def failLoginSvc : IgService :=
  { deserializes := fun _ => false
    login := fun _ _ _ => .error (.exc "login failed")
    probe := fun _ => false }

/-- The empty session store. -/
def emptyStore : Store := fun _ => none

/-! Helper lemmas. -/

/-- Cancel a common prefix and suffix of a string concatenation. -/
theorem string_append_cancel {p s a b : String}
    (h : p ++ a ++ s = p ++ b ++ s) : a = b := by
  have hd : p.data ++ (a.data ++ s.data) = p.data ++ (b.data ++ s.data) := by
    have h0 := congrArg String.data h
    simpa [String.data_append, List.append_assoc] using h0
  have h1 : a.data ++ s.data = b.data ++ s.data := List.append_cancel_left hd
  exact String.ext (List.append_cancel_right h1)

/-- A list is a Boolean prefix of itself followed by anything. -/
theorem isPrefixOf_append_self (l t : List Char) : l.isPrefixOf (l ++ t) = true := by
  induction l with
  | nil => cases t <;> rfl
  | cons a l ih =>
    show (a == a && l.isPrefixOf (l ++ t)) = true
    simp [ih]

/-- The DownloadError wrapper message starts with its own prefix text. -/
theorem startswith_network_wrapper (x : String) :
    str_startswith ("Network error downloading image: " ++ x)
      "Network error downloading image:" = true := by
  unfold str_startswith
  have h0 : ("Network error downloading image: " : String).data
      = "Network error downloading image:".data ++ [' '] := by decide
  have h : ("Network error downloading image: " ++ x).data
      = "Network error downloading image:".data ++ (' ' :: x.data) := by
    simp [String.data_append, h0]
  rw [h]
  exact isPrefixOf_append_self _ _

/-- Both branches of the login call record exactly one login with the
supplied credentials. -/
theorem get_client_logins (svc : IgService) (hx : String → String) (st : Store)
    (u p : String) : (get_client svc hx st u p).logins = [(u, p)] := by
  unfold get_client
  cases h : svc.login (load_settings_step svc st (get_session_file hx u)) u p <;> simp [h]

end InstagramBotApi

namespace InstagramBotApi

/-- Spec-side predicate, written from the spec's words: a `DownloadError`
is the failure `download_image` raises for network problems, which the
code realises as the plain `Exception` whose message carries the
"Network error downloading image:" prefix (app.py line 90). -/
def isDownloadError : Except PyExc String → Bool
  | .error (.exc m) => str_startswith m "Network error downloading image:"
  | _ => false

/-- C3: at a URL whose GET is answered 200, `download_image` does not
return a file path at all: line 65 references `urlparse`, which app.py
never imports, so every call that passes `raise_for_status` raises the
catch-all-wrapped NameError after exactly one network request and
creates no file. -/
theorem download_image_200_raises_wrapped_nameerror :
    download_image okGet [] "https://example.com/pic.JPG?x=1" =
      ⟨.error (.exc "Unexpected error downloading image: name \x27urlparse\x27 is not defined"),
        1, []⟩ := by
  rfl

/-- C4 counterexample: at `ftp://example.com/a.jpg` the scheme check does
raise a `ValueError` (the InvalidInputError), but the function's own
catch-all re-raises it as a plain `Exception`, so the failure that
reaches the caller is not the `ValueError`. -/
theorem download_image_bad_scheme_not_valueerror :
    (download_image okGet [] "ftp://example.com/a.jpg").result =
      .error (.exc "Unexpected error downloading image: Invalid URL scheme - must be http:// or https://") ∧
    (download_image okGet [] "ftp://example.com/a.jpg").result ≠
      .error (.valueError "Invalid URL scheme - must be http:// or https://") := by
  decide

/-- C4 (amended): for every URL whose scheme is neither http nor https,
`download_image` makes zero network calls and creates no file, failing
with the plain `Exception` that wraps the scheme-check `ValueError`
message. -/
theorem download_image_bad_scheme_no_network
    (get : String → Except PyExc HttpResponse) (fs : FsState) (url : String)
    (h1 : str_startswith url "http://" = false)
    (h2 : str_startswith url "https://" = false) :
    download_image get fs url =
      ⟨.error (.exc "Unexpected error downloading image: Invalid URL scheme - must be http:// or https://"),
        0, fs⟩ := by
  unfold download_image
  simp [h1, h2, PyExc.isRequestException, PyExc.isIOErr, PyExc.msg]

/-- C4 witness: the amended statement at `ftp://example.com/a.jpg`. -/
theorem download_image_bad_scheme_no_network_witness :
    download_image okGet [] "ftp://example.com/a.jpg" =
      ⟨.error (.exc "Unexpected error downloading image: Invalid URL scheme - must be http:// or https://"),
        0, []⟩ :=
  download_image_bad_scheme_no_network okGet [] "ftp://example.com/a.jpg" rfl rfl

/-- C5 counterexample: a `304 Not Modified` response is non-2xx, yet
`raise_for_status` only raises for 4xx/5xx, so `download_image` does not
fail with the DownloadError wrapper there (it fails with the unrelated
wrapped NameError of line 65). -/
theorem download_image_304_no_download_error :
    (download_image notModifiedGet [] "https://example.com/a.jpg").result =
      .error (.exc "Unexpected error downloading image: name \x27urlparse\x27 is not defined") ∧
    isDownloadError (download_image notModifiedGet [] "https://example.com/a.jpg").result
      = false := by
  decide

/-- C5 (amended): for every URL whose GET is answered with a 4xx or 5xx
response, `download_image` raises the DownloadError wrapper (a plain
`Exception` around the `HTTPError` message) after one network call and
leaves the scratch filesystem unchanged, so no zero-byte file is left
behind. -/
theorem download_image_4xx5xx_download_error
    (get : String → Except PyExc HttpResponse) (fs : FsState) (url : String)
    (resp : HttpResponse)
    (hscheme : str_startswith url "https://" = true)
    (hget : get url = .ok resp)
    (hlo : 400 ≤ resp.status) (hhi : resp.status ≤ 599) :
    download_image get fs url =
      ⟨.error (.exc ("Network error downloading image: " ++ http_error_message url resp)),
        1, fs⟩ ∧
    isDownloadError (download_image get fs url).result = true := by
  have hrs : raise_for_status url resp = .error (.httpError (http_error_message url resp)) := by
    simp [raise_for_status, hlo, hhi]
  have hmain : download_image get fs url =
      ⟨.error (.exc ("Network error downloading image: " ++ http_error_message url resp)),
        1, fs⟩ := by
    unfold download_image
    simp [hscheme, hget, hrs, PyExc.isRequestException, PyExc.msg]
  refine ⟨hmain, ?_⟩
  rw [hmain]
  exact startswith_network_wrapper (http_error_message url resp)

/-- C5 witness: the amended statement at a concrete 404 response. -/
theorem download_image_4xx5xx_download_error_witness :
    download_image notFoundGet [] "https://example.com/a.jpg" =
      ⟨.error (.exc ("Network error downloading image: "
          ++ http_error_message "https://example.com/a.jpg" ⟨404, "Not Found", []⟩)),
        1, []⟩ ∧
    isDownloadError (download_image notFoundGet [] "https://example.com/a.jpg").result
      = true :=
  download_image_4xx5xx_download_error notFoundGet [] "https://example.com/a.jpg"
    ⟨404, "Not Found", []⟩ rfl rfl (by decide) (by decide)

end InstagramBotApi

namespace InstagramBotApi

/-- C2 counterexample: a cached record for `alice` exists, deserializes,
and a liveness probe on it would succeed, yet `get_client` performs one
login call (not zero) and returns the fresh post-login session rather
than the cached one. -/
theorem get_client_cached_session_still_logs_in :
    cachedStore (get_session_file idDigest "alice") = some "cachedsession" ∧
    liveSvc.deserializes "cachedsession" = true ∧
    liveSvc.probe "cachedsession" = true ∧
    (get_client liveSvc idDigest cachedStore "alice" "pw").logins = [("alice", "pw")] ∧
    (get_client liveSvc idDigest cachedStore "alice" "pw").result = .ok ⟨some "freshsession"⟩ := by
  refine ⟨?_, rfl, rfl, ?_, rfl⟩
  · simp [cachedStore]
  · exact get_client_logins liveSvc idDigest cachedStore "alice" "pw"

/-- C2 (amended): even for an account whose cached session record exists,
deserializes successfully, and would pass a liveness probe, `get_client`
performs exactly one login call with the supplied credentials — the code
has no probe fast path that skips authentication. -/
theorem get_client_valid_cache_one_login
    (svc : IgService) (hx : String → String) (st : Store) (u p blob : String)
    (hcache : st (get_session_file hx u) = some blob)
    (hde : svc.deserializes blob = true)
    (hprobe : svc.probe blob = true) :
    (get_client svc hx st u p).logins = [(u, p)] :=
  get_client_logins svc hx st u p

/-- C2 witness: the amended statement at the concrete cached store. -/
theorem get_client_valid_cache_one_login_witness :
    (get_client liveSvc idDigest cachedStore "alice" "pw").logins = [("alice", "pw")] :=
  get_client_valid_cache_one_login liveSvc idDigest cachedStore "alice" "pw"
    "cachedsession" (by simp [cachedStore]) rfl rfl

/-- C6: a cached record that fails to deserialize is non-fatal:
`get_client` still performs exactly one login call with the supplied
credentials and, when that login succeeds, returns the fresh session and
overwrites the cached record with it. -/
theorem get_client_corrupt_cache_relogin_overwrites
    (svc : IgService) (hx : String → String) (st : Store) (u p blob newBlob : String)
    (hcache : st (get_session_file hx u) = some blob)
    (hde : svc.deserializes blob = false)
    (hlogin : svc.login ⟨none⟩ u p = .ok newBlob) :
    (get_client svc hx st u p).result = .ok ⟨some newBlob⟩ ∧
    (get_client svc hx st u p).logins = [(u, p)] ∧
    (get_client svc hx st u p).store (get_session_file hx u) = some newBlob := by
  have hcl : load_settings_step svc st (get_session_file hx u) = ⟨none⟩ := by
    simp [load_settings_step, hcache, hde]
  refine ⟨?_, ?_, ?_⟩ <;> simp [get_client, hcl, hlogin, store_set]

/-- C6 witness: the statement at a concrete corrupt cached record. -/
theorem get_client_corrupt_cache_relogin_overwrites_witness :
    (get_client strictSvc idDigest cachedStore "alice" "pw").result
      = .ok ⟨some "freshsession"⟩ ∧
    (get_client strictSvc idDigest cachedStore "alice" "pw").logins = [("alice", "pw")] ∧
    (get_client strictSvc idDigest cachedStore "alice" "pw").store
      (get_session_file idDigest "alice") = some "freshsession" :=
  get_client_corrupt_cache_relogin_overwrites strictSvc idDigest cachedStore
    "alice" "pw" "cachedsession" "freshsession" (by simp [cachedStore]) rfl rfl

/-- C7: `get_session_file` is a pure deterministic mapping from the
account identifier to a session path, and identifiers whose digests
differ are mapped to different paths. -/
theorem get_session_file_deterministic_injective
    (sha256hex : String → String) (u v : String) :
    (u = v → get_session_file sha256hex u = get_session_file sha256hex v) ∧
    (sha256hex u ≠ sha256hex v →
      get_session_file sha256hex u ≠ get_session_file sha256hex v) := by
  refine ⟨fun e => by rw [e], fun hne heq => hne ?_⟩
  exact string_append_cancel (by simpa [get_session_file] using heq)

/-- C7 witness: the statement at the identity digest on two identifiers. -/
theorem get_session_file_deterministic_injective_witness :
    get_session_file idDigest "alice" = get_session_file idDigest "alice" ∧
    get_session_file idDigest "alice" ≠ get_session_file idDigest "bob" :=
  ⟨(get_session_file_deterministic_injective idDigest "alice" "alice").1 rfl,
   (get_session_file_deterministic_injective idDigest "alice" "bob").2 (by decide)⟩

/-- C9: when the external login call raises, `get_client` re-raises that
exception and the session store is exactly what it was before the call:
`dump_settings` only runs after a successful login. -/
theorem get_client_login_failure_leaves_store
    (svc : IgService) (hx : String → String) (st : Store) (u p : String) (e : PyExc)
    (hlogin : svc.login (load_settings_step svc st (get_session_file hx u)) u p
      = .error e) :
    (get_client svc hx st u p).result = .error e ∧
    (get_client svc hx st u p).store = st := by
  constructor <;> simp [get_client, hlogin]

/-- C9 witness: the statement at a concrete failing login. -/
theorem get_client_login_failure_leaves_store_witness :
    (get_client failLoginSvc idDigest emptyStore "alice" "pw").result
      = .error (.exc "login failed") ∧
    (get_client failLoginSvc idDigest emptyStore "alice" "pw").store = emptyStore :=
  get_client_login_failure_leaves_store failLoginSvc idDigest emptyStore
    "alice" "pw" (.exc "login failed") rfl

end InstagramBotApi

namespace InstagramBotApi

/-- Image-acquisition oracle that creates one scratch file and returns
its path (the outcome the claims about the handler condition on). -/
def okDownload : FsState → String → Except PyExc String × FsState :=
  fun fs _ => (.ok "temp_images/0123abcd.jpg", ("temp_images/0123abcd.jpg", 2048) :: fs)

/-- Handlers whose upload step raises. -/
def uploadFailHandlers : Handlers :=
  { download := okDownload
    getClient := fun _ _ => .ok ⟨some "sess"⟩
    photoUpload := fun _ _ _ => .error (.exc "upload failed") }

/-- Handlers whose upload step succeeds. -/
def uploadOkHandlers : Handlers :=
  { download := okDownload
    getClient := fun _ _ => .ok ⟨some "sess"⟩
    photoUpload := fun _ _ _ => .ok 123456789 }

/-- Handlers none of whose steps can succeed (used where the handler must
not reach them at all). -/
def stubHandlers : Handlers :=
  { download := fun fs _ => (.error (.exc "net"), fs)
    getClient := fun _ _ => .error (.exc "net")
    photoUpload := fun _ _ _ => .error (.exc "net") }

/-- A request with all required fields present. -/
def fullReq : Req := ⟨some "alice", some "pw", some "https://example.com/a.jpg", none⟩

/-- A request whose password field is absent. -/
def missingSecretReq : Req := ⟨some "alice", none, some "https://example.com/a.jpg", none⟩

/-- A request whose password field is present but empty. -/
def emptySecretReq : Req := ⟨some "alice", some "", some "https://example.com/a.jpg", none⟩

/-- C1: `os.remove` sits on the success path only (app.py line 165): when
the acquisition step produces a scratch file and the upload then raises,
the handler answers 500 and the file still exists; when the upload
succeeds, the file is gone.  Cleanup is skipped on the error path. -/
theorem post_image_leaks_temp_file_on_upload_error :
    (post_image uploadFailHandlers [] fullReq).status = 500 ∧
    fileExists (post_image uploadFailHandlers [] fullReq).fs
      "temp_images/0123abcd.jpg" = true ∧
    (post_image uploadOkHandlers [] fullReq).status = 200 ∧
    fileExists (post_image uploadOkHandlers [] fullReq).fs
      "temp_images/0123abcd.jpg" = false := by
  decide

/-- C8: a request with a required field absent is answered 400 with the
error body, with the filesystem untouched and no outbound call of any
kind made. -/
theorem post_image_missing_field_400
    (H : Handlers) (fs : FsState) (req : Req)
    (h : req.username = none ∨ req.password = none ∨ req.image_url = none) :
    post_image H fs req =
      ⟨400, .error "username, password, and image_url are required", fs, []⟩ := by
  unfold post_image
  rcases h with h | h | h <;> simp [h, truthy]

/-- C8 witness: the statement at a request missing its password. -/
theorem post_image_missing_field_400_witness :
    post_image stubHandlers [] missingSecretReq =
      ⟨400, .error "username, password, and image_url are required", [], []⟩ :=
  post_image_missing_field_400 stubHandlers [] missingSecretReq (Or.inr (Or.inl rfl))

/-- C10: a required field that is present but equal to the empty string
takes the same 400 path as an absent one — same response, no file
created, no outbound call — because the guard tests Python truthiness. -/
theorem post_image_empty_field_like_missing
    (H : Handlers) (fs : FsState) (req : Req)
    (h : req.username = some "" ∨ req.password = some "" ∨ req.image_url = some "") :
    post_image H fs req =
      ⟨400, .error "username, password, and image_url are required", fs, []⟩ ∧
    post_image H fs req = post_image H fs ⟨none, none, none, req.caption⟩ := by
  have hall : post_image H fs ⟨none, none, none, req.caption⟩ =
      ⟨400, .error "username, password, and image_url are required", fs, []⟩ := by
    unfold post_image
    simp [truthy]
  have hone : post_image H fs req =
      ⟨400, .error "username, password, and image_url are required", fs, []⟩ := by
    unfold post_image
    rcases h with h | h | h <;> simp [h, truthy]
  exact ⟨hone, hone.trans hall.symm⟩

/-- C10 witness: the statement at a request with an empty password. -/
theorem post_image_empty_field_like_missing_witness :
    post_image stubHandlers [] emptySecretReq =
      ⟨400, .error "username, password, and image_url are required", [], []⟩ ∧
    post_image stubHandlers [] emptySecretReq =
      post_image stubHandlers [] ⟨none, none, none, none⟩ :=
  post_image_empty_field_like_missing stubHandlers [] emptySecretReq
    (Or.inr (Or.inl rfl))

end InstagramBotApi
